import Mathlib

/-!
Verification development for the Streamlit survey application (src/app.py).

The application is a linear multi-step survey: a session-scoped state mapping
(modelled by `Survey.SessionState`), a step flow controller over seven named
steps, a text transform used for the speech scripts, and a submit path that
fetches a remote CSV dataset, appends one flattened record and uploads the
whole table back.  All definitions below are shallow embeddings of the
corresponding Python code; external effects (the Hugging Face download and
upload) are passed in as explicit fetch results and write functions.
-/

namespace Survey

/-- A value stored in the Streamlit session state or in the output record:
Python `None`, a number, or a string. -/
inductive Value where
  | none
  | nat (n : Nat)
  | str (s : String)
deriving DecidableEq, Repr

/-- The fixed survey flow, `steps` in app.py line 15. -/
def steps : List String :=
  ["consent", "demographics", "baseline", "session_emp", "session_neu", "open", "review"]

/-- The session state of one participant, mirroring the keys installed by
`init_state` (app.py lines 235-277) plus the `step_changed` flag which is
absent until first set and read with default `False` (line 285); it is
modelled as a `Bool` starting at `false`.  Grouped dictionaries such as
`gad = {q1 .. q7}` are modelled as lists indexed by question number - 1. -/
structure SessionState where
  consented : Bool
  step : String
  step_changed : Bool
  participant_id : String
  start_ts : String
  age : Value
  gender : Value
  gender_other : String
  education : Value
  voice_exp : Value
  used_assistants : Value
  tech_comfort : Value
  gad : List Value
  gad_impact : Value
  panas : List Value
  single_mood : Value
  emp : List Value
  emp_state_anxiety : Value
  emp_post : List Value
  neu : List Value
  neu_state_anxiety : Value
  neu_post : List Value
  open_emp : String
  open_neu : String
  open_compare : String
  open_pref : String
  open_empathy : String
  open_trust : String
  open_triggers : String
  open_improve : String
  open_more_1 : String
  open_more_2 : String
deriving DecidableEq, Repr

/-- `init_state` defaults (app.py lines 235-277).  The participant id and the
start timestamp are generated at runtime and are taken as parameters. -/
def initState (pid start_ts : String) : SessionState where
  consented := false
  step := "consent"
  step_changed := false
  participant_id := pid
  start_ts := start_ts
  age := Value.none
  gender := Value.none
  gender_other := ""
  education := Value.none
  voice_exp := Value.none
  used_assistants := Value.none
  tech_comfort := Value.none
  gad := List.replicate 7 Value.none
  gad_impact := Value.none
  panas := List.replicate 10 Value.none
  single_mood := Value.none
  emp := List.replicate 8 Value.none
  emp_state_anxiety := Value.none
  emp_post := List.replicate 7 Value.none
  neu := List.replicate 8 Value.none
  neu_state_anxiety := Value.none
  neu_post := List.replicate 7 Value.none
  open_emp := ""
  open_neu := ""
  open_compare := ""
  open_pref := ""
  open_empathy := ""
  open_trust := ""
  open_triggers := ""
  open_improve := ""
  open_more_1 := ""
  open_more_2 := ""

/-- The `next_step` arguments of the `navigation_buttons` calls
(app.py lines 374, 423, 499, 550, 578).  The consent step uses its own
Continue handler and the review step renders no navigation buttons, so
neither appears here. -/
def nextOf : String → Option String
  | "demographics" => some ("baseline")
  | "baseline" => some ("session_emp")
  | "session_emp" => some ("session_neu")
  | "session_neu" => some ("open")
  | "open" => some ("review")
  | _ => Option.none

/-- The `prev_step` arguments of the `navigation_buttons` calls
(app.py lines 374, 423, 499, 550, 578).  The review step renders no
navigation buttons, so it has no predecessor entry. -/
def prevOf : String → Option String
  | "demographics" => some ("consent")
  | "baseline" => some ("demographics")
  | "session_emp" => some ("baseline")
  | "session_neu" => some ("session_emp")
  | "open" => some ("session_neu")
  | _ => Option.none

/-- Result of the consent Continue handler: the new state and whether the
warning was shown. -/
structure ConsentResult where
  state : SessionState
  warned : Bool
deriving DecidableEq, Repr

/-- The consent step Continue handler (app.py lines 345-352): when the
checkbox is set it records consent and moves to demographics (without
touching `step_changed`); otherwise it warns and changes nothing. -/
def consentContinue (st : SessionState) (checked : Bool) : ConsentResult :=
  if st.step = "consent" then
    if checked then
      { state := { st with consented := true, step := "demographics" }, warned := false }
    else
      { state := st, warned := true }
  else
    { state := st, warned := false }

/-- Pressing the Continue button on the current step: the consent step uses
its dedicated handler (lines 346-352); every other step uses the
`navigation_buttons` forward branch (lines 310-314), which also sets the
`step_changed` flag.  Steps without a Continue button leave the state
unchanged. -/
def pressContinue (st : SessionState) (consentChecked : Bool) : SessionState :=
  if st.step = "consent" then
    (consentContinue st consentChecked).state
  else
    match nextOf st.step with
    | some n => { st with step := n, step_changed := true }
    | Option.none => st

/-- Pressing the Back button on the current step: the `navigation_buttons`
backward branch (app.py lines 305-309).  Steps without a Back button leave
the state unchanged. -/
def pressBack (st : SessionState) : SessionState :=
  match prevOf st.step with
  | some p => { st with step := p, step_changed := true }
  | Option.none => st

/-- `scroll_to_top` (app.py lines 284-290): if the `step_changed` flag is
set, emit the scroll (second component `true`) and clear the flag. -/
def scroll_to_top (st : SessionState) : SessionState × Bool :=
  if st.step_changed then ({ st with step_changed := false }, true)
  else (st, false)

/-- Widget values read by the demographics step (app.py lines 358-372). -/
structure DemographicsInput where
  age : Value
  gender : Value
  gender_other : String
  education : Value
  voice_exp : Value
  used_assistants : Value
  tech_comfort : Value
deriving DecidableEq, Repr

/-- The demographics step body (app.py lines 358-372), executed only while
the current step is `demographics`.  The free-text `gender_other` field is
written only when the specify option is selected. -/
def demographicsStep (st : SessionState) (inp : DemographicsInput) : SessionState :=
  if st.step = "demographics" then
    { st with
      age := inp.age
      gender := inp.gender
      gender_other :=
        if inp.gender = Value.str ("Non-binary/Other (specify)") then inp.gender_other
        else st.gender_other
      education := inp.education
      voice_exp := inp.voice_exp
      used_assistants := inp.used_assistants
      tech_comfort := inp.tech_comfort }
  else st

/-- Widget values read by the baseline step (app.py lines 379-421):
the seven GAD answers, the impact item, the ten PANAS answers and the
single mood item. -/
structure BaselineInput where
  gad : List Value
  gad_impact : Value
  panas : List Value
  single_mood : Value
deriving DecidableEq, Repr

/-- The baseline step body (app.py lines 379-421), executed only while the
current step is `baseline`. -/
def baselineStep (st : SessionState) (inp : BaselineInput) : SessionState :=
  if st.step = "baseline" then
    { st with
      gad := inp.gad
      gad_impact := inp.gad_impact
      panas := inp.panas
      single_mood := inp.single_mood }
  else st

/-- Widget values read by a voice session step: the eight rating items and
the state anxiety item. -/
structure SessionInput where
  items : List Value
  state_anxiety : Value
deriving DecidableEq, Repr

/-- The empathetic session step body (app.py lines 454-497), executed only
while the current step is `session_emp`; it writes the `emp` group and
`emp_state_anxiety`. -/
def sessionEmpStep (st : SessionState) (inp : SessionInput) : SessionState :=
  if st.step = "session_emp" then
    { st with emp := inp.items, emp_state_anxiety := inp.state_anxiety }
  else st

/-- The neutral session step body (app.py lines 504-548), executed only
while the current step is `session_neu`; it writes the `neu` group and
`neu_state_anxiety`. -/
def sessionNeuStep (st : SessionState) (inp : SessionInput) : SessionState :=
  if st.step = "session_neu" then
    { st with neu := inp.items, neu_state_anxiety := inp.state_anxiety }
  else st

/-- Widget values read by the open-ended step (app.py lines 555-576). -/
structure OpenInput where
  open_emp : String
  open_neu : String
  open_compare : String
  open_pref : String
  open_empathy : String
  open_trust : String
  open_triggers : String
  open_improve : String
  open_more_1 : String
  open_more_2 : String
deriving DecidableEq, Repr

/-- The open-ended step body (app.py lines 555-576), executed only while the
current step is `open`. -/
def openStep (st : SessionState) (inp : OpenInput) : SessionState :=
  if st.step = "open" then
    { st with
      open_emp := inp.open_emp
      open_neu := inp.open_neu
      open_compare := inp.open_compare
      open_pref := inp.open_pref
      open_empathy := inp.open_empathy
      open_trust := inp.open_trust
      open_triggers := inp.open_triggers
      open_improve := inp.open_improve
      open_more_1 := inp.open_more_1
      open_more_2 := inp.open_more_2 }
  else st

/-- A pandas `DataFrame` as used here: a column list and a list of rows,
each row a flat association list from column name to value. -/
structure DataFrame where
  cols : List String
  rows : List (List (String × Value))
deriving DecidableEq, Repr

/-- `load_existing_hf_csv` (app.py lines 212-222): the download plus parse
is represented by its result, an `Except`; any failure is caught and
replaced by `pd.DataFrame(columns=["participant_id"])`, an empty table
whose only column is `participant_id`. -/
def load_existing_hf_csv (fetch : Except String DataFrame) : DataFrame :=
  match fetch with
  | Except.ok df => df
  | Except.error _ => { cols := [("participant_id")], rows := [] }

/-- `pd.concat([a, b], ignore_index=True)` on flat-record frames: rows are
concatenated in order; the column list is the union keeping the order of
first appearance. -/
def dfConcat (a b : DataFrame) : DataFrame :=
  { cols := a.cols ++ b.cols.filter (fun c => ! a.cols.contains c)
    rows := a.rows ++ b.rows }

/-- The output record assembled by the review submit handler
(app.py lines 587-609), in the insertion order of the Python dict. -/
def buildRecord (st : SessionState) (submit_ts : String) : List (String × Value) :=
  [(("participant_id"), Value.str st.participant_id),
   (("start_ts_utc"), Value.str st.start_ts),
   (("submit_ts_utc"), Value.str submit_ts),
   (("age"), st.age),
   (("gender"), st.gender),
   (("gender_other"), Value.str st.gender_other),
   (("education"), st.education),
   (("voice_exp"), st.voice_exp),
   (("used_assistants"), st.used_assistants),
   (("tech_comfort"), st.tech_comfort),
   (("single_mood"), st.single_mood)]
  ++ (List.range 7).map (fun i => ("gad_q" ++ toString (i + 1), st.gad.getD i Value.none))
  ++ [(("gad_impact"), st.gad_impact)]
  ++ (List.range 10).map (fun i => ("panas_q" ++ toString (i + 1), st.panas.getD i Value.none))
  ++ (List.range 8).map (fun i => ("emp_q" ++ toString (i + 1), st.emp.getD i Value.none))
  ++ [(("emp_state_anxiety"), st.emp_state_anxiety)]
  ++ (List.range 7).map (fun i => ("emp_post_q" ++ toString (i + 1), st.emp_post.getD i Value.none))
  ++ (List.range 8).map (fun i => ("neu_q" ++ toString (i + 1), st.neu.getD i Value.none))
  ++ [(("neu_state_anxiety"), st.neu_state_anxiety)]
  ++ (List.range 7).map (fun i => ("neu_post_q" ++ toString (i + 1), st.neu_post.getD i Value.none))
  ++ [(("open_emp"), Value.str st.open_emp),
      (("open_neu"), Value.str st.open_neu),
      (("open_compare"), Value.str st.open_compare),
      (("open_pref"), Value.str st.open_pref),
      (("open_empathy"), Value.str st.open_empathy),
      (("open_trust"), Value.str st.open_trust),
      (("open_triggers"), Value.str st.open_triggers),
      (("open_improve"), Value.str st.open_improve),
      (("open_more_1"), Value.str st.open_more_1),
      (("open_more_2"), Value.str st.open_more_2)]

/-- `pd.DataFrame([record])`: a one-row frame whose columns are the record
keys. -/
def recordRowDF (st : SessionState) (submit_ts : String) : DataFrame :=
  { cols := (buildRecord st submit_ts).map Prod.fst
    rows := [buildRecord st submit_ts] }

/-- The table built by the submit handler (app.py lines 611-612): the
fetched (or fallback-empty) existing frame with the new record appended as
the last row. -/
def updatedDF (st : SessionState) (fetch : Except String DataFrame) (submit_ts : String) :
    DataFrame :=
  dfConcat (load_existing_hf_csv fetch) (recordRowDF st submit_ts)

/-- What the submit handler reports: the success flag, the message shown to
the user, and the table handed to the upload when the upload succeeded. -/
structure SubmitOutcome where
  success : Bool
  message : String
  written : Option DataFrame
deriving DecidableEq, Repr

/-- The review submit handler (app.py lines 583-616): guarded on the review
step, it assembles the record, fetches with fallback, appends, and uploads
the whole table in one write; the `try` block reports success only when the
write raises nothing and otherwise surfaces the raw error.  The handler
never writes any session state, which the returned first component makes
explicit. -/
def reviewSubmit (st : SessionState) (fetch : Except String DataFrame)
    (write : DataFrame → Except String Unit) (submit_ts : String) :
    SessionState × SubmitOutcome :=
  if st.step = "review" then
    match write (updatedDF st fetch submit_ts) with
    | Except.ok _ =>
        (st, { success := true, message := ("Submitted successfully!")
               written := some (updatedDF st fetch submit_ts) })
    | Except.error e =>
        (st, { success := false, message := "Upload failed: " ++ e, written := Option.none })
  else
    (st, { success := false, message := "", written := Option.none })

/-- A navigation action: pressing Continue (with the current value of the
consent checkbox, which only matters on the consent step) or pressing
Back. -/
inductive NavAct where
  | cont (checked : Bool)
  | back
deriving DecidableEq, Repr

/-- Apply one navigation action to the session state. -/
def applyNavAct (st : SessionState) : NavAct → SessionState
  | NavAct.cont checked => pressContinue st checked
  | NavAct.back => pressBack st

/-- Run a sequence of navigation actions. -/
def runNav (st : SessionState) : List NavAct → SessionState
  | [] => st
  | a :: rest => runNav (applyNavAct st a) rest

/-- Every state-mutating interaction of one script run: a navigation press,
one of the step bodies re-reading its widgets, the scroll-to-top check, or
the submit action (with the external fetch result and write behaviour). -/
inductive Event where
  | navCont (checked : Bool)
  | navBack
  | demographics (inp : DemographicsInput)
  | baseline (inp : BaselineInput)
  | sessionEmp (inp : SessionInput)
  | sessionNeu (inp : SessionInput)
  | openEnded (inp : OpenInput)
  | scroll
  | submit (fetch : Except String DataFrame) (write : DataFrame → Except String Unit)
      (submit_ts : String)

/-- Apply one interaction to the session state. -/
def applyEvent (st : SessionState) : Event → SessionState
  | Event.navCont checked => pressContinue st checked
  | Event.navBack => pressBack st
  | Event.demographics inp => demographicsStep st inp
  | Event.baseline inp => baselineStep st inp
  | Event.sessionEmp inp => sessionEmpStep st inp
  | Event.sessionNeu inp => sessionNeuStep st inp
  | Event.openEnded inp => openStep st inp
  | Event.scroll => (scroll_to_top st).1
  | Event.submit fetch write submit_ts => (reviewSubmit st fetch write submit_ts).1

/-- Run a sequence of interactions. -/
def runEvents (st : SessionState) : List Event → SessionState
  | [] => st
  | e :: rest => runEvents (applyEvent st e) rest

/-- The forward adjacency edges of the step flow: consecutive pairs of the
fixed step order. -/
def forwardEdges : List (String × String) := steps.zip steps.tail

/-- The backward adjacency edges: the forward edges reversed. -/
def backwardEdges : List (String × String) := forwardEdges.map (fun p => (p.2, p.1))

/-- Whether `(a, b)` is one of the adjacency edges of the step flow, forward
or backward. -/
def specEdge (a b : String) : Bool := (forwardEdges ++ backwardEdges).contains (a, b)

/-- The startup configuration messages (app.py lines 26-29): one error per
missing environment variable.  Python falsiness of the variable (absent or
empty) is the emptiness of `getD ""`. -/
def startupErrors (hfToken hfRepo : Option String) : List String :=
  (if hfToken.getD "" = "" then [("Missing HF_TOKEN in .env")] else []) ++
  (if hfRepo.getD "" = "" then [("Missing HF_DATASET_REPO in .env")] else [])

/-- What one top-to-bottom script run shows: the configuration error
messages emitted by the startup check, whether the run aborted with an
uncaught exception before reaching the step blocks, and which survey step
page was rendered. -/
structure RenderResult where
  configErrors : List String
  aborted : Bool
  servedStep : Option String
deriving DecidableEq, Repr

/-- One top-to-bottom run of the script.  The startup validation (app.py
lines 26-29) only emits error messages and execution continues, but line 33
then runs `HfFolder.save_token(HF_TOKEN)` unconditionally: with the token
unset (`Option.none`, Python `None`) that call raises a `TypeError` (the
token is written to a file, and writing `None` is rejected), aborting the
run after the error messages and before any step block, so no step page is
served.  With any token string present (even empty) the save succeeds and
the step page matching the session state is rendered regardless of the
configuration messages. -/
def renderApp (hfToken hfRepo : Option String) (st : SessionState) : RenderResult :=
  match hfToken with
  | Option.none =>
      { configErrors := startupErrors hfToken hfRepo
        aborted := true
        servedStep := Option.none }
  | some _ =>
      { configErrors := startupErrors hfToken hfRepo
        aborted := false
        servedStep := if steps.contains st.step then some st.step else Option.none }

/-- One left-to-right pass of literal non-overlapping substring replacement,
following Python `str.replace`: at each position, if the pattern matches,
emit the replacement and continue after the matched occurrence (the
replacement text is not rescanned); otherwise keep the character.  The fuel
is structural; it is instantiated with the length of the string, which
suffices because every step consumes at least one character when the
pattern is nonempty. -/
def replaceFuel (pat rep : List Char) : Nat → List Char → List Char
  | 0, s => s
  | _ + 1, [] => []
  | fuel + 1, c :: rest =>
    if pat.isPrefixOf (c :: rest) then
      rep ++ replaceFuel pat rep fuel (List.drop pat.length (c :: rest))
    else
      c :: replaceFuel pat rep fuel rest

/-- Python `text.replace(pat, rep)` for a nonempty pattern (every pattern
used by the tone transform is nonempty; the empty-pattern case returns the
text unchanged here). -/
def pyReplace (s pat rep : String) : String :=
  if pat.data = [] then s
  else { data := replaceFuel pat.data rep.data s.data.length s.data }

/-- The apostrophe character. -/
def aposS : String := String.singleton (Char.ofNat 39)

/-- The contraction patterns of the tone transform, written with an explicit
apostrophe: `pIm` and `pYoure` are capitalised, the rest lower case. -/
def pIm : String := "I" ++ aposS ++ "m"

def pYoureLower : String := "you" ++ aposS ++ "re"

def pIts : String := "it" ++ aposS ++ "s"

def pCant : String := "can" ++ aposS ++ "t"

def pYoure : String := "You" ++ aposS ++ "re"

/-- `preprocess_text_for_tone` (app.py lines 89-108): the ordered literal
replacements for the empathetic and neutral tones; any other tone returns
the text unmodified. -/
def preprocess_text_for_tone (text : String) (tone : String) : String :=
  if tone = "empathetic" then
    let t := pyReplace text "." "... "
    let t := pyReplace t "," ", "
    let t := pyReplace t ("Take a slow breath") ("Take a slow, deep breath")
    pyReplace t pYoure ("You are truly")
  else if tone = "neutral" then
    let t := pyReplace text pIm ("I am")
    let t := pyReplace t pYoureLower ("you are")
    let t := pyReplace t pIts ("it is")
    let t := pyReplace t pCant ("cannot")
    let t := pyReplace t ("glad") ("pleased")
    pyReplace t ("wonderful") ("acceptable")
  else text

/-- Proof-side projection of `pressContinue` to the step name alone. -/
def stepContinue (cur : String) (checked : Bool) : String :=
  if cur = "consent" then (if checked then "demographics" else cur)
  else (nextOf cur).getD cur

/-- Proof-side projection of `pressBack` to the step name alone. -/
def stepBack (cur : String) : String := (prevOf cur).getD cur

/-- The column names of the output record; they do not depend on the session
state or the timestamp. -/
def recordKeys : List String := (buildRecord (initState ("") ("")) ("")).map Prod.fst

/-- A session state positioned on the review step, used as a concrete
fixture. -/
def stReview : SessionState := { initState ("p0") ("t0") with step := ("review") }

/-- A write operation that always succeeds. -/
def writeOk : DataFrame → Except String Unit := fun _ => Except.ok ()

/-- A write operation that always raises. -/
def writeFail : DataFrame → Except String Unit := fun _ => Except.error ("network down")

/-- A fetch result holding one prior row. -/
def fetchOne : Except String DataFrame :=
  Except.ok { cols := [("participant_id")]
              rows := [[(("participant_id"), Value.str ("prev"))]] }

theorem pressContinue_step (st : SessionState) (c : Bool) :
    (pressContinue st c).step = stepContinue st.step c := by
  unfold pressContinue stepContinue consentContinue
  by_cases h : st.step = "consent"
  · simp [h]; cases c <;> simp [h]
  · simp [h]; cases hn : nextOf st.step <;> simp [hn]

theorem pressBack_step (st : SessionState) : (pressBack st).step = stepBack st.step := by
  unfold pressBack stepBack
  cases hp : prevOf st.step <;> simp [hp]

theorem stepContinue_edge : ∀ cur ∈ steps,
    ((stepContinue cur true ∈ steps) ∧
      (stepContinue cur true = cur ∨ specEdge cur (stepContinue cur true) = true)) ∧
    ((stepContinue cur false ∈ steps) ∧
      (stepContinue cur false = cur ∨ specEdge cur (stepContinue cur false) = true)) := by
  decide

theorem stepBack_edge : ∀ cur ∈ steps,
    (stepBack cur ∈ steps) ∧ (stepBack cur = cur ∨ specEdge cur (stepBack cur) = true) := by
  decide

theorem applyNavAct_mem (st : SessionState) (a : NavAct) (h : st.step ∈ steps) :
    (applyNavAct st a).step ∈ steps := by
  cases a with
  | cont c =>
      simp only [applyNavAct]
      rw [pressContinue_step]
      cases c
      · exact (stepContinue_edge _ h).2.1
      · exact (stepContinue_edge _ h).1.1
  | back =>
      simp only [applyNavAct]
      rw [pressBack_step]
      exact (stepBack_edge _ h).1

theorem runNav_mem (acts : List NavAct) : ∀ st : SessionState, st.step ∈ steps →
    (runNav st acts).step ∈ steps := by
  induction acts with
  | nil => exact fun st h => h
  | cons a rest ih => exact fun st h => ih _ (applyNavAct_mem st a h)

theorem applyEvent_preserves_post (st : SessionState) (e : Event) :
    (applyEvent st e).emp_post = st.emp_post ∧ (applyEvent st e).neu_post = st.neu_post := by
  cases e <;>
    simp only [applyEvent, pressContinue, pressBack, consentContinue, demographicsStep,
      baselineStep, sessionEmpStep, sessionNeuStep, openStep, scroll_to_top, reviewSubmit] <;>
    (repeat' split) <;> exact ⟨rfl, rfl⟩

theorem runEvents_preserves_post (evs : List Event) : ∀ st : SessionState,
    (runEvents st evs).emp_post = st.emp_post ∧ (runEvents st evs).neu_post = st.neu_post := by
  induction evs with
  | nil => exact fun st => ⟨rfl, rfl⟩
  | cons e rest ih =>
      intro st
      obtain ⟨h1, h2⟩ := ih (applyEvent st e)
      obtain ⟨g1, g2⟩ := applyEvent_preserves_post st e
      exact ⟨h1.trans g1, h2.trans g2⟩

theorem buildRecord_keys (st : SessionState) (ts : String) :
    (buildRecord st ts).map Prod.fst = recordKeys := rfl

theorem recordKeys_nodup : recordKeys.Nodup := by decide

theorem buildRecord_emp_post_entry (st : SessionState) (ts : String)
    (he : st.emp_post = List.replicate 7 Value.none) (i : Nat) (h1 : 1 ≤ i) (h2 : i ≤ 7) :
    ("emp_post_q" ++ toString i, Value.none) ∈ buildRecord st ts := by
  simp only [buildRecord, he]
  interval_cases i
  all_goals
    refine List.mem_append_left _ (List.mem_append_left _ (List.mem_append_left _
      (List.mem_append_left _ (List.mem_append_right _ ?_))))
  all_goals decide

theorem buildRecord_neu_post_entry (st : SessionState) (ts : String)
    (hn : st.neu_post = List.replicate 7 Value.none) (i : Nat) (h1 : 1 ≤ i) (h2 : i ≤ 7) :
    ("neu_post_q" ++ toString i, Value.none) ∈ buildRecord st ts := by
  simp only [buildRecord, hn]
  interval_cases i
  all_goals refine List.mem_append_left _ (List.mem_append_right _ ?_)
  all_goals decide

/-- Claim C1: when the submit action fires while the current step is review,
the handler builds one flattened record from the session answers, appends it
as the last row of the fetched dataset with every previously existing row
unchanged and in its prior order, hands the whole updated table to a single
write, and reports success exactly when that write completes without
raising (the fetch and the append themselves never raise: the fetch failure
is absorbed by the fallback and the append is pure). -/
theorem c1_submit_append_write (st : SessionState) (fetch : Except String DataFrame)
    (write : DataFrame → Except String Unit) (submit_ts : String)
    (hstep : st.step = "review") :
    ((updatedDF st fetch submit_ts).rows
      = (load_existing_hf_csv fetch).rows ++ [buildRecord st submit_ts]) ∧
    ((reviewSubmit st fetch write submit_ts).2.success = true ↔
      write (updatedDF st fetch submit_ts) = Except.ok ()) ∧
    (write (updatedDF st fetch submit_ts) = Except.ok () →
      (reviewSubmit st fetch write submit_ts).2.written
        = some (updatedDF st fetch submit_ts)) := by
  refine ⟨rfl, ?_, ?_⟩
  · unfold reviewSubmit
    rw [hstep]
    cases hw : write (updatedDF st fetch submit_ts) <;> simp [hw, hstep]
  · intro hw
    unfold reviewSubmit
    rw [hstep]
    simp [hw, hstep]

theorem c1_submit_append_write_witness :
    stReview.step = "review" ∧
    ((updatedDF stReview fetchOne ("ts1")).rows
      = (load_existing_hf_csv fetchOne).rows ++ [buildRecord stReview ("ts1")]) ∧
    ((reviewSubmit stReview fetchOne writeOk ("ts1")).2.success = true) ∧
    ((reviewSubmit stReview fetchOne writeOk ("ts1")).2.written
      = some (updatedDF stReview fetchOne ("ts1"))) :=
  ⟨rfl,
   (c1_submit_append_write stReview fetchOne writeOk ("ts1") rfl).1,
   ((c1_submit_append_write stReview fetchOne writeOk ("ts1") rfl).2.1).mpr rfl,
   (c1_submit_append_write stReview fetchOne writeOk ("ts1") rfl).2.2 rfl⟩

/-- Claim C2: every failure of the remote read is absorbed: the fetch result
is replaced by an empty table whose only column is participant_id, the
submission proceeds, and when the remote path does not exist the table
handed to the upload contains exactly one row, the new participant
record. -/
theorem c2_read_failure_fallback (st : SessionState) (err : String)
    (write : DataFrame → Except String Unit) (submit_ts : String)
    (hstep : st.step = "review") :
    (∀ e, load_existing_hf_csv (Except.error e)
      = { cols := [("participant_id")], rows := [] }) ∧
    ((updatedDF st (Except.error err) submit_ts).rows = [buildRecord st submit_ts]) ∧
    (write (updatedDF st (Except.error err) submit_ts) = Except.ok () →
      (reviewSubmit st (Except.error err) write submit_ts).2.success = true ∧
      (reviewSubmit st (Except.error err) write submit_ts).2.written
        = some (updatedDF st (Except.error err) submit_ts)) := by
  refine ⟨fun e => rfl, rfl, ?_⟩
  intro hw
  unfold reviewSubmit
  rw [hstep]
  simp [hw, hstep]

theorem c2_read_failure_fallback_witness :
    stReview.step = "review" ∧
    load_existing_hf_csv (Except.error ("404 not found"))
      = { cols := [("participant_id")], rows := [] } ∧
    ((updatedDF stReview (Except.error ("404 not found")) ("ts2")).rows
      = [buildRecord stReview ("ts2")]) ∧
    ((reviewSubmit stReview (Except.error ("404 not found")) writeOk ("ts2")).2.success
      = true) :=
  ⟨rfl,
   (c2_read_failure_fallback stReview ("404 not found") writeOk ("ts2") rfl).1 _,
   (c2_read_failure_fallback stReview ("404 not found") writeOk ("ts2") rfl).2.1,
   ((c2_read_failure_fallback stReview ("404 not found") writeOk ("ts2") rfl).2.2 rfl).1⟩

/-- Claim C3: if the write raises during a submission, the submission is
reported as failed with the underlying error message, and the whole session
state is left unchanged (in particular the step stays review and every
answer field keeps its value), so a manual retry is possible. -/
theorem c3_write_failure_preserves_state (st : SessionState)
    (fetch : Except String DataFrame) (write : DataFrame → Except String Unit)
    (submit_ts e : String) (hstep : st.step = "review")
    (hw : write (updatedDF st fetch submit_ts) = Except.error e) :
    (reviewSubmit st fetch write submit_ts).2.success = false ∧
    (reviewSubmit st fetch write submit_ts).2.message = "Upload failed: " ++ e ∧
    (reviewSubmit st fetch write submit_ts).1 = st ∧
    (reviewSubmit st fetch write submit_ts).1.step = "review" := by
  unfold reviewSubmit
  rw [hstep]
  simp [hw, hstep]

theorem c3_write_failure_preserves_state_witness :
    stReview.step = "review" ∧
    writeFail (updatedDF stReview fetchOne ("ts3")) = Except.error ("network down") ∧
    (reviewSubmit stReview fetchOne writeFail ("ts3")).2.success = false ∧
    (reviewSubmit stReview fetchOne writeFail ("ts3")).2.message
      = "Upload failed: " ++ "network down" ∧
    (reviewSubmit stReview fetchOne writeFail ("ts3")).1 = stReview :=
  ⟨rfl, rfl,
   (c3_write_failure_preserves_state stReview fetchOne writeFail ("ts3")
      ("network down") rfl rfl).1,
   (c3_write_failure_preserves_state stReview fetchOne writeFail ("ts3")
      ("network down") rfl rfl).2.1,
   (c3_write_failure_preserves_state stReview fetchOne writeFail ("ts3")
      ("network down") rfl rfl).2.2.1⟩

/-- Claim C4: on the consent step, pressing Continue with the checkbox clear
never changes the state: the attempt is rejected with a visible warning and
the user remains on consent; the transition to demographics fires only when
the consent flag is true. -/
theorem c4_consent_gate (st : SessionState) (checked : Bool)
    (hstep : st.step = "consent") :
    (checked = false →
      (consentContinue st checked).state = st ∧
      (consentContinue st checked).warned = true) ∧
    (checked = true →
      (consentContinue st checked).state.step = "demographics" ∧
      (consentContinue st checked).state.consented = true ∧
      (consentContinue st checked).warned = false) ∧
    ((consentContinue st checked).state.step ≠ st.step → checked = true) := by
  unfold consentContinue
  cases checked <;> simp [hstep]

theorem c4_consent_gate_witness :
    (initState ("p0") ("t0")).step = "consent" ∧
    (consentContinue (initState ("p0") ("t0")) false).state = initState ("p0") ("t0") ∧
    (consentContinue (initState ("p0") ("t0")) false).warned = true ∧
    (consentContinue (initState ("p0") ("t0")) true).state.step = "demographics" :=
  ⟨rfl,
   ((c4_consent_gate (initState ("p0") ("t0")) false rfl).1 rfl).1,
   ((c4_consent_gate (initState ("p0") ("t0")) false rfl).1 rfl).2,
   ((c4_consent_gate (initState ("p0") ("t0")) true rfl).2.1 rfl).1⟩

/-- Claim C5: along every sequence of Continue and Back presses starting
from the initial consent state, the current step stays inside the
seven-element step set, and every single press either leaves the step
unchanged (a rejected or absent transition) or follows one of the adjacency
edges of the fixed order, one step forward or one step backward. -/
theorem c5_nav_invariant :
    (∀ pid start_ts acts, (runNav (initState pid start_ts) acts).step ∈ steps) ∧
    (∀ st : SessionState, ∀ a : NavAct, st.step ∈ steps →
      ((applyNavAct st a).step = st.step ∨
        specEdge st.step (applyNavAct st a).step = true)) := by
  constructor
  · intro pid start_ts acts
    exact runNav_mem acts _ (show ("consent" : String) ∈ steps by decide)
  · intro st a h
    cases a with
    | cont c =>
        simp only [applyNavAct]
        rw [pressContinue_step]
        cases c
        · exact (stepContinue_edge _ h).2.2
        · exact (stepContinue_edge _ h).1.2
    | back =>
        simp only [applyNavAct]
        rw [pressBack_step]
        exact (stepBack_edge _ h).2

theorem c5_nav_invariant_witness :
    ((runNav (initState ("p0") ("t0"))
        [NavAct.cont true, NavAct.cont true, NavAct.back]).step ∈ steps) ∧
    (stReview.step ∈ steps) ∧
    ((applyNavAct stReview NavAct.back).step = stReview.step ∨
      specEdge stReview.step (applyNavAct stReview NavAct.back).step = true) :=
  ⟨c5_nav_invariant.1 ("p0") ("t0") _,
   by decide,
   c5_nav_invariant.2 stReview NavAct.back (by decide)⟩

/-- Claim C6 counterexample: the review step offers no Back action.  The
review block renders only the Submit button, so `prev_step` is never wired
for review; pressing Back there leaves the step at review rather than
moving to open. -/
theorem c6_counterexample :
    prevOf ("review") = Option.none ∧
    (pressBack stReview).step = "review" ∧
    (pressBack stReview).step ≠ "open" := by
  decide

/-- Claim C6 amended: the review step offers no Back (and no Continue)
navigation action: both navigation presses leave the step at review, and
the only remaining action, Submit, does not change the session state
either. -/
theorem c6_review_no_back (st : SessionState) (hstep : st.step = "review") :
    (∀ checked, (pressContinue st checked).step = "review") ∧
    ((pressBack st).step = "review") ∧
    (∀ fetch write submit_ts, (reviewSubmit st fetch write submit_ts).1 = st) := by
  refine ⟨?_, ?_, ?_⟩
  · intro c
    rw [pressContinue_step, hstep]
    cases c <;> decide
  · rw [pressBack_step, hstep]
    decide
  · intro fetch write submit_ts
    unfold reviewSubmit
    rw [hstep]
    cases hw : write (updatedDF st fetch submit_ts) <;> simp [hw]

theorem c6_review_no_back_witness :
    stReview.step = "review" ∧
    (pressContinue stReview true).step = "review" ∧
    (pressBack stReview).step = "review" ∧
    (reviewSubmit stReview fetchOne writeOk ("ts6")).1 = stReview :=
  ⟨rfl,
   (c6_review_no_back stReview rfl).1 true,
   (c6_review_no_back stReview rfl).2.1,
   (c6_review_no_back stReview rfl).2.2 fetchOne writeOk ("ts6")⟩

/-- Claim C7: the tone transform with tone neutral applies the fixed literal
rule table (the scenario text becomes exactly the fully substituted
sentence), with tone empathetic it leaves the contraction of I am intact
while turning each period into an ellipsis pause marker, and any other tone
value returns the text unmodified. -/
theorem c7_tone_transform :
    (preprocess_text_for_tone ("I" ++ aposS ++ "m glad you" ++ aposS ++ "re wonderful")
        ("neutral") = "I am pleased you are acceptable") ∧
    (preprocess_text_for_tone ("I" ++ aposS ++ "m here. Breathe.") ("empathetic")
      = "I" ++ aposS ++ "m here...  Breathe... ") ∧
    (∀ text tone, tone ≠ "empathetic" → tone ≠ "neutral" →
      preprocess_text_for_tone text tone = text) := by
  refine ⟨by decide, by decide, ?_⟩
  intro text tone h1 h2
  unfold preprocess_text_for_tone
  rw [if_neg h1, if_neg h2]

theorem c7_tone_transform_witness :
    (("calm" : String) ≠ "empathetic") ∧ (("calm" : String) ≠ "neutral") ∧
    preprocess_text_for_tone ("Hello.") ("calm") = "Hello." :=
  ⟨by decide, by decide,
   c7_tone_transform.2.2 ("Hello.") ("calm") (by decide) (by decide)⟩

/-- Claim C8 counterexample: the consent Continue handler moves the step to
demographics without setting the just-navigated flag, so the flag is not
set on every accepted transition: starting from the initial state (flag
clear), accepting consent reaches demographics with the flag still
clear. -/
theorem c8_counterexample :
    (consentContinue (initState ("p0") ("t0")) true).state.step = "demographics" ∧
    (consentContinue (initState ("p0") ("t0")) true).state.step_changed = false := by
  decide

/-- Claim C8 amended: every transition performed through the shared
navigation buttons sets the just-navigated flag, but the consent Continue
handler leaves the flag untouched on the consent to demographics edge; the
flag is one-shot: a set flag is consumed by the next scroll-to-top check,
which emits the scroll, clears the flag, and does not fire a second
time. -/
theorem c8_flag_semantics :
    (∀ st : SessionState, ∀ c, st.step ≠ "consent" → (pressContinue st c).step ≠ st.step →
      (pressContinue st c).step_changed = true) ∧
    (∀ st : SessionState, (pressBack st).step ≠ st.step →
      (pressBack st).step_changed = true) ∧
    (∀ st : SessionState, ∀ c, (consentContinue st c).state.step_changed = st.step_changed) ∧
    (∀ st : SessionState, st.step_changed = true →
      (scroll_to_top st).2 = true ∧
      (scroll_to_top st).1.step_changed = false ∧
      (scroll_to_top (scroll_to_top st).1).2 = false) := by
  refine ⟨?_, ?_, ?_, ?_⟩
  · intro st c h hne
    unfold pressContinue at hne ⊢
    rw [if_neg h] at hne ⊢
    cases hn : nextOf st.step
    · rw [hn] at hne
      exact absurd rfl hne
    · rfl
  · intro st hne
    unfold pressBack at hne ⊢
    cases hp : prevOf st.step
    · rw [hp] at hne
      exact absurd rfl hne
    · rfl
  · intro st c
    unfold consentContinue
    by_cases h : st.step = "consent"
    · rw [if_pos h]
      cases c <;> rfl
    · rw [if_neg h]
  · intro st h
    simp [scroll_to_top, h]

theorem c8_flag_semantics_witness :
    (stReview.step ≠ "consent") ∧
    ((pressBack { stReview with step := ("open") }).step
      ≠ ({ stReview with step := ("open") } : SessionState).step) ∧
    ((pressBack { stReview with step := ("open") }).step_changed = true) ∧
    ((consentContinue (initState ("p0") ("t0")) true).state.step_changed
      = (initState ("p0") ("t0")).step_changed) ∧
    ((scroll_to_top { stReview with step_changed := true }).2 = true ∧
      (scroll_to_top { stReview with step_changed := true }).1.step_changed = false ∧
      (scroll_to_top (scroll_to_top { stReview with step_changed := true }).1).2 = false) :=
  ⟨by decide, by decide,
   c8_flag_semantics.2.1 { stReview with step := ("open") } (by decide),
   c8_flag_semantics.2.2.1 (initState ("p0") ("t0")) true,
   c8_flag_semantics.2.2.2 { stReview with step_changed := true } rfl⟩

/-- Claim C9 counterexample: a missing dataset repository identifier does
not block interaction.  With the token present and the repository id
absent, the startup check emits its error message, yet the run does not
abort and the consent step page is still served, contradicting the claim
that the absence of the repository identifier blocks all further
interaction with no survey step served. -/
theorem c9_counterexample :
    (renderApp (some ("tok")) Option.none (initState ("p0") ("t0"))).configErrors
      = [("Missing HF_DATASET_REPO in .env")] ∧
    (renderApp (some ("tok")) Option.none (initState ("p0") ("t0"))).aborted = false ∧
    (renderApp (some ("tok")) Option.none (initState ("p0") ("t0"))).servedStep
      = some ("consent") := by
  decide

/-- Claim C9 amended: an unset access token is fatal: its startup error
message renders and the unconditional token save then raises, aborting the
run before any survey step is served.  With any token value present, a
missing dataset repository identifier is only reported: the run does not
abort and the step page served is exactly the one served with a full
configuration, so interaction is not blocked. -/
theorem c9_token_fatal_repo_reported (hfToken hfRepo : Option String)
    (st : SessionState) :
    (hfToken = Option.none →
      ("Missing HF_TOKEN in .env" ∈ (renderApp hfToken hfRepo st).configErrors) ∧
      (renderApp hfToken hfRepo st).aborted = true ∧
      (renderApp hfToken hfRepo st).servedStep = Option.none) ∧
    (∀ tok, hfToken = some tok →
      (renderApp hfToken hfRepo st).aborted = false ∧
      (hfRepo.getD "" = "" →
        "Missing HF_DATASET_REPO in .env" ∈ (renderApp hfToken hfRepo st).configErrors) ∧
      ((renderApp hfToken hfRepo st).servedStep
        = (renderApp (some ("tk")) (some ("rp")) st).servedStep)) := by
  constructor
  · intro h
    subst h
    refine ⟨?_, rfl, rfl⟩
    simp [renderApp, startupErrors]
  · intro tok h
    subst h
    refine ⟨rfl, ?_, rfl⟩
    intro hrepo
    simp [renderApp, startupErrors, hrepo]

theorem c9_token_fatal_repo_reported_witness :
    ((some ("tok") : Option String) = some ("tok")) ∧
    ((renderApp (some ("tok")) Option.none (initState ("p0") ("t0"))).aborted = false) ∧
    ((Option.none : Option String).getD "" = "") ∧
    ("Missing HF_DATASET_REPO in .env"
      ∈ (renderApp (some ("tok")) Option.none (initState ("p0") ("t0"))).configErrors) ∧
    ((renderApp (some ("tok")) Option.none (initState ("p0") ("t0"))).servedStep
      = (renderApp (some ("tk")) (some ("rp")) (initState ("p0") ("t0"))).servedStep) ∧
    ((Option.none : Option String) = Option.none) ∧
    ((renderApp Option.none (some ("user/repo")) (initState ("p0") ("t0"))).aborted = true) ∧
    ((renderApp Option.none (some ("user/repo")) (initState ("p0") ("t0"))).servedStep
      = Option.none) :=
  ⟨rfl,
   ((c9_token_fatal_repo_reported (some ("tok")) Option.none
      (initState ("p0") ("t0"))).2 ("tok") rfl).1,
   rfl,
   ((c9_token_fatal_repo_reported (some ("tok")) Option.none
      (initState ("p0") ("t0"))).2 ("tok") rfl).2.1 rfl,
   ((c9_token_fatal_repo_reported (some ("tok")) Option.none
      (initState ("p0") ("t0"))).2 ("tok") rfl).2.2,
   rfl,
   ((c9_token_fatal_repo_reported Option.none (some ("user/repo"))
      (initState ("p0") ("t0"))).1 rfl).2.1,
   ((c9_token_fatal_repo_reported Option.none (some ("user/repo"))
      (initState ("p0") ("t0"))).1 rfl).2.2⟩

/-- Claim C10: the emp_post and neu_post groups are initialised to all None
and no interaction ever writes them, so after any sequence of interactions
the assembled output record carries the entry (emp_post_qi, None) and
(neu_post_qi, None) for every i in 1..7; the record keys are pairwise
distinct, so these entries are the fields of those names. -/
theorem c10_post_fields_none (pid start0 submit_ts : String) (evs : List Event)
    (i : Nat) (h1 : 1 ≤ i) (h2 : i ≤ 7) :
    (("emp_post_q" ++ toString i, Value.none) ∈
      buildRecord (runEvents (initState pid start0) evs) submit_ts) ∧
    (("neu_post_q" ++ toString i, Value.none) ∈
      buildRecord (runEvents (initState pid start0) evs) submit_ts) ∧
    ((buildRecord (runEvents (initState pid start0) evs) submit_ts).map Prod.fst).Nodup := by
  obtain ⟨he, hn⟩ := runEvents_preserves_post evs (initState pid start0)
  exact ⟨buildRecord_emp_post_entry _ _ he i h1 h2,
         buildRecord_neu_post_entry _ _ hn i h1 h2,
         buildRecord_keys _ _ ▸ recordKeys_nodup⟩

theorem c10_post_fields_none_witness :
    (1 ≤ 3 ∧ 3 ≤ 7) ∧
    (("emp_post_q" ++ toString 3, Value.none) ∈
      buildRecord (runEvents (initState ("p0") ("t0")) []) ("ts9")) ∧
    (("neu_post_q" ++ toString 3, Value.none) ∈
      buildRecord (runEvents (initState ("p0") ("t0")) []) ("ts9")) :=
  ⟨⟨by decide, by decide⟩,
   (c10_post_fields_none ("p0") ("t0") ("ts9") [] 3 (by decide) (by decide)).1,
   (c10_post_fields_none ("p0") ("t0") ("ts9") [] 3 (by decide) (by decide)).2.1⟩

end Survey
